import Mathlib

/-!
Shallow embedding of the research-pipeline engine of this repository
(`app/agents/planner.py`, `app/agents/researcher.py`, `app/agents/writer.py`,
`app/graph/state.py`, `app/graph/workflow.py`, `app/services/streaming.py`).

External collaborators (the language model, the search provider) are
abstracted as oracle functions carried in an `Env` record: each oracle's
`Except`/`Option` outcome stands for the whole invoke-plus-parse attempt
that the corresponding Python `try` block guards.  All engine logic that
lives in the repository (fallbacks, deduplication, counting, event
sequencing, chunking, state merging) is translated directly from the
Python source.
-/

/-- `app/models.py` is absent from the sources; its record shapes are fixed
by their construction sites.  `SubQuestion(id=..., question=...,
search_queries=..., priority=...)` as built in `planner.py`. -/
structure SubQuestion where
  id : String
  question : String
  search_queries : List String
  priority : Int
deriving Repr, DecidableEq

/-- `ResearchPlan(sub_questions=...)` as built in `planner.py`. -/
structure ResearchPlan where
  sub_questions : List SubQuestion
deriving Repr, DecidableEq

/-- `Citation(title=..., url=...)` as built in `researcher.py`. -/
structure Citation where
  title : String
  url : String
deriving Repr, DecidableEq

/-- `ResearchNote(sub_question_id=..., evidence_bullets=..., sources=...,
open_questions=...)` as built in `researcher.py`. -/
structure ResearchNote where
  sub_question_id : String
  evidence_bullets : List String
  sources : List Citation
  open_questions : List String
deriving Repr, DecidableEq

/-- One raw search result: a dict with keys `title`, `url`, `content`.
`researcher.py` reads `title` and `url` with `.get(key, default)` (the key
may be absent), and `content` by direct indexing, so `title` and `url` are
optional here and `content` is total. -/
structure SearchResult where
  title : Option String
  url : Option String
  content : String
deriving Repr, DecidableEq

/-- The writer's parsed JSON reply; `writer.py` reads each key with
`report_data.get(key, default)`, so every field is optional. -/
structure ReportData where
  executive_summary : Option String
  report : Option String
  key_takeaways : Option (List String)
  limitations : Option String
deriving Repr, DecidableEq

/-- The `ResearchState` TypedDict of `app/graph/state.py` (plus the
`thread_id` input field).  `final_report`, `executive_summary`,
`limitations` and `plan` start as `None`, hence `Option`. -/
structure RState where
  query : String
  thread_id : String
  plan : Option ResearchPlan
  research_notes : List ResearchNote
  final_report : Option String
  executive_summary : Option String
  key_takeaways : List String
  limitations : Option String
  citations : List Citation
  errors : List String
  sources_analyzed : Nat
deriving Repr, DecidableEq

/-- A node's partial update: the dict a stage returns.  `none` in a field
means the key is absent from the returned dict. -/
structure StateUpdate where
  plan : Option ResearchPlan := none
  research_notes : Option (List ResearchNote) := none
  final_report : Option String := none
  executive_summary : Option String := none
  key_takeaways : Option (List String) := none
  limitations : Option String := none
  citations : Option (List Citation) := none
  errors : Option (List String) := none
  sources_analyzed : Option Nat := none
deriving Repr, DecidableEq

/-- Merge of a node's partial update into the graph state, following the
reducer annotations declared in `app/graph/state.py`: `research_notes`,
`key_takeaways`, `citations` and `errors` are `Annotated[List[...], add]`
(concatenate); every other field — including `sources_analyzed`, which is
declared as a plain `int` with no reducer annotation — takes the update's
value when the key is present (LangGraph's default overwrite reducer). -/
def mergeUpdate (s : RState) (u : StateUpdate) : RState :=
  { query := s.query
    thread_id := s.thread_id
    plan := (u.plan.map some).getD s.plan
    research_notes := s.research_notes ++ u.research_notes.getD []
    final_report := (u.final_report.map some).getD s.final_report
    executive_summary := (u.executive_summary.map some).getD s.executive_summary
    key_takeaways := s.key_takeaways ++ u.key_takeaways.getD []
    limitations := (u.limitations.map some).getD s.limitations
    citations := s.citations ++ u.citations.getD []
    errors := s.errors ++ u.errors.getD []
    sources_analyzed := u.sources_analyzed.getD s.sources_analyzed }

/-- `final_state.update(output)` in `streaming.py` (Python `dict.update`):
every field present in the update overwrites the tracker's value, list
fields included. -/
def dictUpdate (s : RState) (u : StateUpdate) : RState :=
  { query := s.query
    thread_id := s.thread_id
    plan := (u.plan.map some).getD s.plan
    research_notes := u.research_notes.getD s.research_notes
    final_report := (u.final_report.map some).getD s.final_report
    executive_summary := (u.executive_summary.map some).getD s.executive_summary
    key_takeaways := u.key_takeaways.getD s.key_takeaways
    limitations := (u.limitations.map some).getD s.limitations
    citations := u.citations.getD s.citations
    errors := u.errors.getD s.errors
    sources_analyzed := u.sources_analyzed.getD s.sources_analyzed }

/-- The collaborator oracles for one run.  An `Except.error e` outcome of
the plan / write oracles models the language-model call or its JSON
parsing raising an exception with message `e`; `search` likewise models
`search_tool.search`; `synth` models the guarded LLM call inside
`_synthesize_findings` (`none` = that inner `try` failed).  `fault` models
an exception raised by the streaming/graph machinery itself after a prefix
of the run's events has been emitted.  `timestamp` stands for
`datetime.utcnow()`. -/
structure Env where
  planOracle : String → Except String ResearchPlan
  search : String → Except String (List SearchResult)
  synth : String → List SearchResult → Option (List String × List String)
  writeOracle : Except String ReportData
  fault : Option (Nat × String)
  timestamp : String

/-- `PlannerAgent.plan` (`planner.py`): one guarded collaborator call; on
any failure, the fallback plan with the single sub-question built from the
original query. -/
def planAgent (env : Env) (state : RState) : StateUpdate :=
  match env.planOracle state.query with
  | Except.ok research_plan =>
      { plan := some research_plan, sources_analyzed := some 0 }
  | Except.error e =>
      { plan := some { sub_questions :=
            [{ id := "sq1", question := state.query,
               search_queries := [state.query], priority := 1 }] }
        errors := some ["Planner agent failed: " ++ e]
        sources_analyzed := some 0 }

/-- `_synthesize_findings` (`researcher.py`): fixed reply on an empty
result list; otherwise the guarded LLM call, falling back to 200-character
excerpts of the first 6 results. -/
def synthesizeFindings (env : Env) (sub_question : String)
    (search_results : List SearchResult) : List String × List String :=
  if search_results.isEmpty then
    (["No search results available for this question"],
     ["Unable to find relevant information"])
  else
    match env.synth sub_question search_results with
    | some a => a
    | none =>
        ((search_results.take 6).map (fun r => (r.content.take 200) ++ "..."),
         ["Unable to fully synthesize findings"])

/-- The inner query loop of `ResearchAgent.research`: run the search calls
in order; the first component is the merged result list (or the exception
message of the first failing call), the second is the number of results
returned by the calls that succeeded before the failure — the partial
`total_sources += len(results)` increments survive the exception. -/
def runQueries (env : Env) : List String → Except String (List SearchResult) × Nat
  | [] => (Except.ok [], 0)
  | q :: qs =>
    match env.search q with
    | Except.error e => (Except.error e, 0)
    | Except.ok rs =>
      match runQueries env qs with
      | (Except.error e, n) => (Except.error e, rs.length + n)
      | (Except.ok rest, n) => (Except.ok (rs ++ rest), rs.length + n)

/-- The dedup loop of `ResearchAgent.research`: a result whose url
(read as `result.get("url", "")`) is nonempty and unseen is kept, its url
added to the run-wide seen set, and a Citation with
`result.get("title", "Untitled")` emitted.  Returns
(unique results, citations, updated seen set). -/
def dedupResults (seen : List String) :
    List SearchResult → List SearchResult × List Citation × List String
  | [] => ([], [], seen)
  | r :: rs =>
    let url := r.url.getD ""
    if url ≠ "" ∧ url ∉ seen then
      let rest := dedupResults (url :: seen) rs
      (r :: rest.1, { title := r.title.getD "Untitled", url := url } :: rest.2.1,
       rest.2.2)
    else
      dedupResults seen rs

/-- The per-sub-question accumulator of `ResearchAgent.research`
(`research_notes`, `all_citations`, `seen_urls`, `total_sources`,
`errors`). -/
structure ResearchAcc where
  notes : List ResearchNote
  citations : List Citation
  seen : List String
  total : Nat
  errors : List String
deriving Repr, DecidableEq

/-- One iteration of the sub-question loop of `ResearchAgent.research`:
the `try` body, with the `except` branch appending the placeholder note
and the error message while keeping the partial `total_sources` count. -/
def researchStep (env : Env) (acc : ResearchAcc) (sub_q : SubQuestion) :
    ResearchAcc :=
  match runQueries env (sub_q.search_queries.take 3) with
  | (Except.error e, n) =>
      { acc with
        notes := acc.notes ++
          [{ sub_question_id := sub_q.id,
             evidence_bullets := ["Research incomplete due to error"],
             sources := [],
             open_questions := ["Unable to complete research for this question"] }]
        total := acc.total + n
        errors := acc.errors ++
          ["Research failed for sub-question '" ++ sub_q.question ++ "': " ++ e] }
  | (Except.ok all_results, n) =>
      let d := dedupResults acc.seen all_results
      let syn := synthesizeFindings env sub_q.question d.1
      { notes := acc.notes ++
          [{ sub_question_id := sub_q.id, evidence_bullets := syn.1,
             sources := d.2.1, open_questions := syn.2 }]
        citations := acc.citations ++ d.2.1
        seen := d.2.2
        total := acc.total + n
        errors := acc.errors }

/-- The sub-questions in processing order: Python's
`sorted(plan.sub_questions, key=lambda sq: sq.priority)` is the stable
ascending sort by priority, which is insertion sort with the reflexive
`≤` comparison (elements of equal priority keep their original order). -/
def sortedSubQs (plan : ResearchPlan) : List SubQuestion :=
  plan.sub_questions.insertionSort (fun a b => a.priority ≤ b.priority)

/-- `ResearchAgent.research` (`researcher.py`). -/
def research (env : Env) (state : RState) : StateUpdate :=
  match state.plan with
  | none => { errors := some ["No research plan available"] }
  | some plan =>
    let acc := (sortedSubQs plan).foldl (researchStep env)
      { notes := [], citations := [], seen := [], total := 0, errors := [] }
    { research_notes := some acc.notes
      citations := some acc.citations
      sources_analyzed := some acc.total
      errors := some acc.errors }

/-- `_generate_fallback_report` (`writer.py`). -/
def fallbackReport (query : String) (research_notes : List ResearchNote) :
    String :=
  let header := ["# Research Report: " ++ query ++ "\n", "## Overview\n",
    "This report presents findings from web research on the query above.\n",
    "## Findings\n"]
  let findings := research_notes.enum.flatMap (fun p =>
    ("\n### Finding " ++ toString (p.1 + 1) ++ "\n") ::
      p.2.evidence_bullets.map (fun b => "- " ++ b))
  let footer := ["\n## Conclusion\n",
    "Further analysis recommended based on the findings above."]
  String.intercalate "\n" (header ++ findings ++ footer)

/-- `ReportWriterAgent.write_report` (`writer.py`).  The second component
counts the language-model collaborator calls issued (0 on the empty-notes
short circuit, 1 otherwise). -/
def writeReport (env : Env) (state : RState) : StateUpdate × Nat :=
  if state.research_notes.isEmpty then
    ({ errors := some ["No research notes available to write report"]
       final_report := some "Unable to generate report due to lack of research data."
       executive_summary := some "Research could not be completed."
       key_takeaways := some ["Unable to generate insights"]
       limitations := some "Research process failed to collect sufficient data." },
     0)
  else
    match env.writeOracle with
    | Except.ok rd =>
        ({ final_report := some (rd.report.getD "")
           executive_summary := some (rd.executive_summary.getD "")
           key_takeaways := some (rd.key_takeaways.getD [])
           limitations := some (rd.limitations.getD "") }, 1)
    | Except.error e =>
        ({ final_report := some (fallbackReport state.query state.research_notes)
           executive_summary :=
             some "Report generated with limited synthesis due to processing error."
           key_takeaways := some ["See detailed findings in report"]
           limitations :=
             some "Report generation encountered errors; synthesis may be incomplete."
           errors := some ["Report writer failed: " ++ e] }, 1)

/-- `ChatMetadata` as built in `StreamingService._build_response`. -/
structure ChatMetadata where
  sub_question_count : Nat
  sources_analyzed : Nat
  completion_timestamp : String
deriving Repr, DecidableEq

/-- `ChatResponse` as built in `StreamingService._build_response`. -/
structure ChatResponse where
  thread_id : String
  query : String
  executive_summary : String
  report : String
  key_takeaways : List String
  limitations : String
  citations : List Citation
  metadata : ChatMetadata
deriving Repr, DecidableEq

/-- The `seen_urls` loop of `StreamingService._build_response`: keep the
first citation carrying each url. -/
def dedupCitations (seen : List String) : List Citation → List Citation
  | [] => []
  | c :: cs =>
    if c.url ∈ seen then dedupCitations seen cs
    else c :: dedupCitations (c.url :: seen) cs

/-- `StreamingService._build_response` (`streaming.py`). -/
def buildResponse (env : Env) (state : RState) (thread_id : String) :
    ChatResponse :=
  { thread_id := thread_id
    query := state.query
    executive_summary := state.executive_summary.getD ""
    report := state.final_report.getD ""
    key_takeaways := state.key_takeaways
    limitations := state.limitations.getD ""
    citations := dedupCitations [] state.citations
    metadata :=
      { sub_question_count :=
          match state.plan with
          | some plan => plan.sub_questions.length
          | none => 0
        sources_analyzed := state.sources_analyzed
        completion_timestamp := env.timestamp ++ "Z" } }

/-- The SSE events emitted by `StreamingService.stream_research`, with the
payload fields each event carries in `streaming.py`. -/
inductive Event where
  | threadId (thread_id : String)
  | planning (status : String) (sub_question_count : Nat)
  | researchProgress (status : String) (sources_analyzed : Nat)
  | writing (status : String)
  | message (content : String)
  | done (response : ChatResponse)
  | error (error : String) (detail : String) (thread_id : String)
deriving Repr, DecidableEq

/-- The event's SSE `event:` name, as passed to `_format_sse_event`. -/
def eventName : Event → String
  | Event.threadId _ => "thread_id"
  | Event.planning _ _ => "planning"
  | Event.researchProgress _ _ => "research_progress"
  | Event.writing _ => "writing"
  | Event.message _ => "message"
  | Event.done _ => "done"
  | Event.error _ _ _ => "error"

/-- The character-slice loop of `_chunk_text` for chunk size `c + 1`, with
explicit fuel (any fuel at least the list's length gives the loop itself):
`for i in range(0, len(text), chunk_size): chunks.append(text[i:i+chunk_size])`. -/
def chunkCoreF (c : Nat) : Nat → List Char → List (List Char)
  | _, [] => []
  | 0, _ :: _ => []
  | fuel + 1, x :: xs =>
      ((x :: xs).take (c + 1)) :: chunkCoreF c fuel ((x :: xs).drop (c + 1))

/-- The character-slice loop of `_chunk_text` for chunk size `c + 1`. -/
def chunkCore (c : Nat) (l : List Char) : List (List Char) :=
  chunkCoreF c l.length l

/-- `StreamingService._chunk_text` (`streaming.py`).  `chunk_size = 0`
makes Python's `range(0, len, 0)` raise `ValueError`, modelled as `none`;
`if not text: return []` is the empty-text branch. -/
def chunkText (text : String) (chunk_size : Nat) : Option (List String) :=
  match chunk_size with
  | 0 => none
  | c + 1 =>
    if text.isEmpty then some []
    else some ((chunkCore c text.data).map (fun l => String.mk l))

/-- The initial state dict built in `stream_research`. -/
def initialState (query thread_id : String) : RState :=
  { query := query, thread_id := thread_id, plan := none, research_notes := []
    final_report := none, executive_summary := none, key_takeaways := []
    limitations := none, citations := [], errors := [], sources_analyzed := 0 }

/-- The plan node's output: the first update yielded by
`graph.astream(initial_state, stream_mode="updates")`. -/
def runPlanOut (env : Env) (query thread_id : String) : StateUpdate :=
  planAgent env (initialState query thread_id)

/-- The graph state after the plan node's update is merged by the
reducers of `state.py`; it is the state the research node receives. -/
def graphAfterPlan (env : Env) (query thread_id : String) : RState :=
  mergeUpdate (initialState query thread_id) (runPlanOut env query thread_id)

/-- The research node's output: the second update yielded by the graph. -/
def runResearchOut (env : Env) (query thread_id : String) : StateUpdate :=
  research env (graphAfterPlan env query thread_id)

/-- The graph state the write_report node receives. -/
def graphAfterResearch (env : Env) (query thread_id : String) : RState :=
  mergeUpdate (graphAfterPlan env query thread_id)
    (runResearchOut env query thread_id)

/-- The write_report node's output: the third update yielded by the graph. -/
def runWriteOut (env : Env) (query thread_id : String) : StateUpdate :=
  (writeReport env (graphAfterResearch env query thread_id)).1

/-- The `final_state` tracker of `stream_research` after the three
`final_state.update(output)` calls (Python `dict.update`). -/
def trackerFinal (env : Env) (query thread_id : String) : RState :=
  dictUpdate
    (dictUpdate
      (dictUpdate (initialState query thread_id) (runPlanOut env query thread_id))
      (runResearchOut env query thread_id))
    (runWriteOut env query thread_id)

/-- `response = self._build_response(final_state, thread_id)`. -/
def runResponse (env : Env) (query thread_id : String) : ChatResponse :=
  buildResponse env (trackerFinal env query thread_id) thread_id

/-- `report_chunks = self._chunk_text(response.report, chunk_size=500)`. -/
def reportChunks (env : Env) (query thread_id : String) : List String :=
  (chunkText (runResponse env query thread_id).report 500).getD []

/-- `sub_count` in the planning event:
`len(output.get("plan").sub_questions) if output.get("plan") else 0`. -/
def subQCount (env : Env) (query thread_id : String) : Nat :=
  match (runPlanOut env query thread_id).plan with
  | some p => p.sub_questions.length
  | none => 0

/-- The events yielded by the body of `stream_research` after the initial
`thread_id` event and before the final `done` event, on the path where no
machinery exception occurs: one progress event per node update of the
linear graph `plan → research → write_report`, then the report chunks. -/
def bodyFront (env : Env) (query thread_id : String) : List Event :=
  [Event.planning
      ("Generated research plan with " ++ toString (subQCount env query thread_id)
        ++ " focus areas.")
      (subQCount env query thread_id),
   Event.researchProgress "Research completed for all sub-questions."
      ((runResearchOut env query thread_id).sources_analyzed.getD 0),
   Event.writing "Synthesis complete. Streaming final report..."]
  ++ (reportChunks env query thread_id).map Event.message

/-- All events yielded by the body of `stream_research` after the initial
`thread_id` event when no machinery exception occurs. -/
def happyBody (env : Env) (query thread_id : String) : List Event :=
  bodyFront env query thread_id
    ++ [Event.done (runResponse env query thread_id)]

/-- `StreamingService.stream_research` (`streaming.py`): the `thread_id`
event, then the body's events; an uncaught machinery exception
(`env.fault = some (n, msg)`) cuts the body off after `n` of its events —
necessarily before the final `done`, since after yielding `done` the body
has nothing left to run — and the `except` branch yields the single
`error` event. -/
def streamResearch (env : Env) (query thread_id : String) : List Event :=
  let body := happyBody env query thread_id
  match env.fault with
  | none => Event.threadId thread_id :: body
  | some (n, msg) =>
      Event.threadId thread_id :: body.take (min n (body.length - 1))
        ++ [Event.error msg "Research workflow failed" thread_id]

/-- The plan the Plan stage produces for a query: the oracle's plan on
success, the single-sub-question fallback on failure. -/
def planResult (env : Env) (query : String) : ResearchPlan :=
  match env.planOracle query with
  | Except.ok p => p
  | Except.error _ =>
      { sub_questions :=
          [{ id := "sq1", question := query,
             search_queries := [query], priority := 1 }] }

/-- The results of the search calls of one sub-question that succeed
before the first failing call (the results the loop body has already
extended `all_results` with when an exception interrupts it). -/
def rawAttempted (env : Env) : List String → List SearchResult
  | [] => []
  | q :: qs =>
    match env.search q with
    | Except.error _ => []
    | Except.ok rs => rs ++ rawAttempted env qs

/-- The raw results, in processing order, of the sub-questions whose whole
query loop succeeds; a sub-question whose loop raises contributes nothing
(its partial results never reach the dedup loop). -/
def rawSuccess (env : Env) (sqs : List SubQuestion) : List SearchResult :=
  sqs.flatMap (fun sq =>
    match (runQueries env (sq.search_queries.take 3)).1 with
    | Except.ok rs => rs
    | Except.error _ => [])

/-- All raw results returned by executed search calls, in processing
order, including the partial results of sub-questions whose loop later
raises — exactly the results `total_sources` counts. -/
def rawAll (env : Env) (sqs : List SubQuestion) : List SearchResult :=
  sqs.flatMap (fun sq => rawAttempted env (sq.search_queries.take 3))

/-- In-order concatenation of emitted chunk payloads. -/
def concatChunks (chunks : List String) : String :=
  chunks.foldr (fun a b => a ++ b) ""

/-- Concrete fixture: planner and writer collaborators fail, the search
call for query "qa" raises, every other search returns no results. -/
def envW : Env where
  planOracle := fun _ => Except.error "down"
  search := fun q => if q = "qa" then Except.error "boom" else Except.ok []
  synth := fun _ _ => none
  writeOracle := Except.error "down"
  fault := none
  timestamp := "T"

/-- Concrete fixture: a two-sub-question plan. -/
def planAB : ResearchPlan where
  sub_questions := [⟨"a", "A", ["qa"], 1⟩, ⟨"b", "B", ["qb"], 2⟩]

/-- Concrete fixture: a state holding `planAB`. -/
def stateAB : RState := { initialState "q" "t" with plan := some planAB }

/-- Concrete fixture: all collaborators succeed; the writer returns a
complete parsed report. -/
def envWriteOk : Env where
  planOracle := fun _ => Except.ok planAB
  search := fun _ => Except.ok []
  synth := fun _ _ => none
  writeOracle := Except.ok ⟨some "s", some "r", some ["k"], some "l"⟩
  fault := none
  timestamp := "T"

/-- Concrete fixture: a state carrying a prior counter value, for the
merge-rule analysis. -/
def stateMergeEx : RState := { initialState "q" "t" with sources_analyzed := 5 }

/-- Concrete fixture: a partial update carrying a counter value. -/
def updateMergeEx : StateUpdate := { sources_analyzed := some 3 }

/-- Concrete fixture: the planner fails (fallback single-item plan), the
search returns nothing, and the writer's parsed reply carries an empty
report string. -/
def envEmptyReport : Env where
  planOracle := fun _ => Except.error "down"
  search := fun _ => Except.ok []
  synth := fun _ _ => none
  writeOracle := Except.ok ⟨some "s", some "", some [], some "l"⟩
  fault := none
  timestamp := "T"

/-- Concrete fixture: sub-question "a" (priority 1, two queries) and
sub-question "b" (priority 2, one query). -/
def planDup : ResearchPlan where
  sub_questions := [⟨"a", "A", ["qa1", "qa2"], 1⟩, ⟨"b", "B", ["qb"], 2⟩]

/-- Concrete fixture: a result for url `https://u` titled "TA". -/
def resultTA : SearchResult := ⟨some "TA", some "https://u", "ca"⟩

/-- Concrete fixture: a result for the same url `https://u` titled "TB". -/
def resultTB : SearchResult := ⟨some "TB", some "https://u", "cb"⟩

/-- Concrete fixture: sub-question "a" receives `resultTA` for its first
query but its second query raises; sub-question "b" receives `resultTB`
(same url, different title). -/
def envDup : Env where
  planOracle := fun _ => Except.ok planDup
  search := fun q =>
    if q = "qa1" then Except.ok [resultTA]
    else if q = "qa2" then Except.error "boom"
    else Except.ok [resultTB]
  synth := fun _ _ => some ([], [])
  writeOracle := Except.ok ⟨some "s", some "r", some [], some "l"⟩
  fault := none
  timestamp := "T"

/-- Concrete fixture: a single-sub-question plan. -/
def planOne : ResearchPlan where
  sub_questions := [⟨"sq1", "Q", ["q1"], 1⟩]

/-- Concrete fixture: a state holding `planOne`. -/
def stateOne : RState := { initialState "q" "t" with plan := some planOne }

/-- Concrete fixture: a search result whose url key is absent. -/
def resultNoUrl : SearchResult := ⟨some "T", none, "c"⟩

/-- Concrete fixture: the single search call returns only `resultNoUrl`. -/
def envNoUrl : Env where
  planOracle := fun _ => Except.ok planOne
  search := fun _ => Except.ok [resultNoUrl]
  synth := fun _ _ => some (["e"], [])
  writeOracle := Except.ok ⟨some "s", some "r", some [], some "l"⟩
  fault := none
  timestamp := "T"

/-- Concrete fixture: a machinery fault injected after two body events. -/
def envFault : Env := { envWriteOk with fault := some (2, "socket closed") }

theorem planAgent_plan (env : Env) (state : RState) :
    (planAgent env state).plan = some (planResult env state.query) := by
  unfold planAgent planResult
  cases env.planOracle state.query <;> rfl

theorem researchStep_notes_length (env : Env) (acc : ResearchAcc)
    (sub_q : SubQuestion) :
    (researchStep env acc sub_q).notes.length = acc.notes.length + 1 := by
  unfold researchStep
  split <;> simp

theorem foldl_researchStep_notes_length (env : Env) :
    ∀ (sqs : List SubQuestion) (acc : ResearchAcc),
      (sqs.foldl (researchStep env) acc).notes.length =
        acc.notes.length + sqs.length
  | [], acc => by simp
  | sq :: sqs, acc => by
    rw [List.foldl_cons, foldl_researchStep_notes_length env sqs,
      researchStep_notes_length]
    simp only [List.length_cons]
    omega

/-- C1: whenever the state holds a plan, the Research stage returns
exactly one research note per sub-question of the plan —
`len(research_notes) == len(plan.sub_questions)` — whichever way the
search and synthesis collaborators behave (on a per-item failure the
placeholder note is appended). -/
theorem research_notes_length_eq_sub_questions (env : Env) (state : RState)
    (plan : ResearchPlan) (h : state.plan = some plan) :
    ∃ notes, (research env state).research_notes = some notes ∧
      notes.length = plan.sub_questions.length := by
  unfold research
  rw [h]
  refine ⟨_, rfl, ?_⟩
  rw [foldl_researchStep_notes_length]
  simp [sortedSubQs, List.length_insertionSort]

/-- C1 witness: a concrete two-sub-question run in which the first item's
search raises and the second's synthesis fails still yields two notes. -/
theorem research_notes_length_witness :
    ∃ notes, (research envW stateAB).research_notes = some notes ∧
      notes.length = planAB.sub_questions.length :=
  research_notes_length_eq_sub_questions envW stateAB planAB rfl

/-- C3: if the Plan stage's collaborator call (or its JSON parsing) fails,
the returned plan is exactly one sub-question whose question is the
original query, whose search queries are `[query]`, and whose priority is
1, and the partial update carries the appended error message. -/
theorem planAgent_fallback (env : Env) (state : RState) (e : String)
    (h : env.planOracle state.query = Except.error e) :
    (planAgent env state).plan = some
      { sub_questions :=
          [{ id := "sq1", question := state.query,
             search_queries := [state.query], priority := 1 }] } ∧
    (planAgent env state).errors = some ["Planner agent failed: " ++ e] := by
  unfold planAgent
  rw [h]
  exact ⟨rfl, rfl⟩

/-- C3 witness: the fallback at a concrete query and failure message. -/
theorem planAgent_fallback_witness :
    (planAgent envW (initialState "why is the sky blue" "t1")).plan =
      some { sub_questions :=
              [⟨"sq1", "why is the sky blue", ["why is the sky blue"], 1⟩] } ∧
    (planAgent envW (initialState "why is the sky blue" "t1")).errors =
      some ["Planner agent failed: " ++ "down"] :=
  planAgent_fallback envW (initialState "why is the sky blue" "t1") "down" rfl

/-- C4: with no research notes in the state, the Write stage returns the
fixed degraded report, summary, takeaways and limitations, and issues zero
language-model collaborator calls. -/
theorem writeReport_empty_notes (env : Env) (state : RState)
    (h : state.research_notes = []) :
    writeReport env state =
      ({ errors := some ["No research notes available to write report"]
         final_report :=
           some "Unable to generate report due to lack of research data."
         executive_summary := some "Research could not be completed."
         key_takeaways := some ["Unable to generate insights"]
         limitations :=
           some "Research process failed to collect sufficient data." },
       0) := by
  unfold writeReport
  rw [h]
  rfl

/-- C4 witness: the degraded output at a concrete empty-notes state, under
an oracle that would succeed if it were called. -/
theorem writeReport_empty_notes_witness :
    writeReport envWriteOk (initialState "q" "t") =
      ({ errors := some ["No research notes available to write report"]
         final_report :=
           some "Unable to generate report due to lack of research data."
         executive_summary := some "Research could not be completed."
         key_takeaways := some ["Unable to generate insights"]
         limitations :=
           some "Research process failed to collect sufficient data." },
       0) :=
  writeReport_empty_notes envWriteOk (initialState "q" "t") rfl

theorem chunkCoreF_nil (c fuel : Nat) : chunkCoreF c fuel [] = [] := by
  cases fuel <;> rfl

theorem chunkCoreF_join (c : Nat) :
    ∀ (fuel : Nat) (l : List Char), l.length ≤ fuel →
      (chunkCoreF c fuel l).foldr (fun a b => a ++ b) [] = l
  | fuel, [], _ => by simp [chunkCoreF_nil]
  | 0, x :: xs, h => by simp at h
  | fuel + 1, x :: xs, h => by
    simp only [chunkCoreF, List.foldr_cons]
    rw [chunkCoreF_join c fuel _
      (by simp only [List.length_drop, List.length_cons]
          simp only [List.length_cons] at h
          omega)]
    exact List.take_append_drop _ _

theorem chunkCoreF_length (c : Nat) :
    ∀ (fuel : Nat) (l : List Char), l.length ≤ fuel →
      (chunkCoreF c fuel l).length = (l.length + c) / (c + 1)
  | fuel, [], _ => by
    simp [chunkCoreF_nil, Nat.div_eq_of_lt (Nat.lt_succ_self c)]
  | 0, x :: xs, h => by simp at h
  | fuel + 1, x :: xs, h => by
    simp only [chunkCoreF, List.length_cons]
    rw [chunkCoreF_length c fuel _
      (by simp only [List.length_drop, List.length_cons]
          simp only [List.length_cons] at h
          omega)]
    rw [List.length_drop, List.length_cons]
    by_cases hc : c + 1 ≤ xs.length + 1
    · have h1 : xs.length + 1 + c = (xs.length + 1 - (c + 1) + c) + (c + 1) := by
        omega
      rw [h1, Nat.add_div_right _ (show 0 < c + 1 by omega)]
    · have h0 : xs.length + 1 - (c + 1) = 0 := by omega
      have h2 : xs.length + 1 + c = xs.length + (c + 1) := by omega
      rw [h0, h2, Nat.add_div_right _ (show 0 < c + 1 by omega)]
      simp only [Nat.zero_add]
      rw [Nat.div_eq_of_lt (show c < c + 1 by omega),
        Nat.div_eq_of_lt (show xs.length < c + 1 by omega)]

theorem chunkCoreF_dropLast_length (c : Nat) :
    ∀ (fuel : Nat) (l : List Char), l.length ≤ fuel →
      ∀ ch ∈ (chunkCoreF c fuel l).dropLast, ch.length = c + 1
  | fuel, [], _ => by simp [chunkCoreF_nil]
  | 0, x :: xs, h => by simp at h
  | fuel + 1, x :: xs, h => by
    intro ch hch
    simp only [chunkCoreF] at hch
    rcases hrest : chunkCoreF c fuel ((x :: xs).drop (c + 1)) with _ | ⟨r, rs⟩
    · rw [hrest] at hch
      simp at hch
    · rw [hrest, List.dropLast_cons_of_ne_nil (by simp)] at hch
      have hne : (x :: xs).drop (c + 1) ≠ [] := by
        intro hd
        rw [hd, chunkCoreF_nil] at hrest
        exact List.noConfusion hrest
      have hlen : c + 1 < (x :: xs).length := by
        rcases Nat.lt_or_ge (c + 1) (x :: xs).length with hlt | hge
        · exact hlt
        · exact absurd (List.drop_eq_nil_of_le hge) hne
      rcases List.mem_cons.mp hch with h1 | h2
      · subst h1
        rw [List.length_take]
        simp only [List.length_cons] at hlen ⊢
        omega
      · rw [← hrest] at h2
        exact chunkCoreF_dropLast_length c fuel _
          (by simp only [List.length_drop, List.length_cons]
              simp only [List.length_cons] at h
              omega)
          ch h2

theorem mk_append (a b : List Char) :
    String.mk a ++ String.mk b = String.mk (a ++ b) :=
  String.ext (by rw [String.data_append])

theorem concatChunks_map_mk :
    ∀ lls : List (List Char),
      concatChunks (lls.map String.mk) =
        String.mk (lls.foldr (fun a b => a ++ b) [])
  | [] => rfl
  | l :: lls => by
    simp only [List.map_cons, concatChunks, List.foldr_cons]
    have ih := concatChunks_map_mk lls
    simp only [concatChunks] at ih
    rw [ih, mk_append]

/-- C6: for any report text and chunk size `C > 0`, the chunker yields
chunks whose in-order concatenation is the text, exactly
`ceil(len(text) / C)` of them, every chunk except possibly the last of
length exactly `C`. -/
theorem chunkText_exact (text : String) (C : Nat) (hC : 0 < C) :
    ∃ chunks, chunkText text C = some chunks ∧
      concatChunks chunks = text ∧
      chunks.length = (text.length + C - 1) / C ∧
      ∀ ch ∈ chunks.dropLast, ch.length = C := by
  obtain ⟨c, rfl⟩ : ∃ c, C = c + 1 := ⟨C - 1, by omega⟩
  by_cases he : text.isEmpty
  · have ht : text = "" := (String.isEmpty_iff text).mp he
    refine ⟨[], by simp [chunkText, he], by simp [concatChunks, ht], ?_, by simp⟩
    subst ht
    show 0 = (0 + (c + 1) - 1) / (c + 1)
    rw [Nat.div_eq_of_lt (by omega)]
  · refine ⟨(chunkCore c text.data).map (fun l => String.mk l),
      by simp [chunkText, he], ?_, ?_, ?_⟩
    · rw [concatChunks_map_mk, chunkCore, chunkCoreF_join c _ _ (Nat.le_refl _)]
    · rw [List.length_map, chunkCore, chunkCoreF_length c _ _ (Nat.le_refl _)]
      have h1 : text.length + (c + 1) - 1 = text.length + c := by omega
      rw [h1]
      rfl
    · intro ch hch
      rw [← List.map_dropLast] at hch
      obtain ⟨l', hl', rfl⟩ := List.mem_map.mp hch
      have := chunkCoreF_dropLast_length c text.data.length text.data
        (Nat.le_refl _) l' hl'
      exact this

/-- C6 witness: chunk size 2 on a length-5 text. -/
theorem chunkText_exact_witness :
    0 < 2 ∧
    ∃ chunks, chunkText "hello" 2 = some chunks ∧
      concatChunks chunks = "hello" ∧
      chunks.length = ("hello".length + 2 - 1) / 2 ∧
      ∀ ch ∈ chunks.dropLast, ch.length = 2 :=
  ⟨by decide, chunkText_exact "hello" 2 (by decide)⟩

/-- C8 (amended): merging a stage's partial update into the graph state
concatenates the list-typed fields (`research_notes`, `citations`,
`key_takeaways`, `errors`) and overwrites every other field when the key
is present — including `sources_analyzed`, which carries no `add`
annotation in `state.py` and is therefore overwritten, not summed. -/
theorem mergeUpdate_rules (s : RState) (u : StateUpdate) :
    (mergeUpdate s u).research_notes =
        s.research_notes ++ u.research_notes.getD [] ∧
    (mergeUpdate s u).citations = s.citations ++ u.citations.getD [] ∧
    (mergeUpdate s u).key_takeaways =
        s.key_takeaways ++ u.key_takeaways.getD [] ∧
    (mergeUpdate s u).errors = s.errors ++ u.errors.getD [] ∧
    (mergeUpdate s u).plan = (u.plan.map some).getD s.plan ∧
    (mergeUpdate s u).final_report =
        (u.final_report.map some).getD s.final_report ∧
    (mergeUpdate s u).executive_summary =
        (u.executive_summary.map some).getD s.executive_summary ∧
    (mergeUpdate s u).limitations =
        (u.limitations.map some).getD s.limitations ∧
    (mergeUpdate s u).sources_analyzed =
        u.sources_analyzed.getD s.sources_analyzed :=
  ⟨rfl, rfl, rfl, rfl, rfl, rfl, rfl, rfl, rfl⟩

/-- C8 counterexample: `sources_analyzed` is not summed across updates —
merging an update carrying 3 into a state carrying 5 yields 3, not 8. -/
theorem mergeUpdate_not_additive :
    stateMergeEx.sources_analyzed = 5 ∧
    updateMergeEx.sources_analyzed = some 3 ∧
    (mergeUpdate stateMergeEx updateMergeEx).sources_analyzed = 3 ∧
    (mergeUpdate stateMergeEx updateMergeEx).sources_analyzed ≠
      stateMergeEx.sources_analyzed +
        updateMergeEx.sources_analyzed.getD 0 := by
  decide

theorem chunkText500_getD_ne_nil (text : String) (h : text ≠ "") :
    (chunkText text 500).getD [] ≠ [] := by
  have he : text.isEmpty = false := by
    by_cases hb : text.isEmpty
    · exact absurd ((String.isEmpty_iff text).mp hb) h
    · simpa using hb
  have hstep : chunkText text 500 =
      if text.isEmpty then some []
      else some ((chunkCore 499 text.data).map (fun l => String.mk l)) := rfl
  rw [hstep, if_neg (by simp [he])]
  have hd : text.data ≠ [] := by
    intro hnil
    exact h (String.ext (by simp [hnil]))
  rcases hd2 : text.data with _ | ⟨x, xs⟩
  · exact absurd hd2 hd
  · simp [chunkCore, chunkCoreF]

theorem stream_shape (env : Env) (q tid : String) (h : env.fault = none) :
    streamResearch env q tid =
      [Event.threadId tid,
       Event.planning
         ("Generated research plan with " ++ toString (subQCount env q tid)
           ++ " focus areas.")
         (subQCount env q tid),
       Event.researchProgress "Research completed for all sub-questions."
         ((runResearchOut env q tid).sources_analyzed.getD 0),
       Event.writing "Synthesis complete. Streaming final report..."]
      ++ (reportChunks env q tid).map Event.message
      ++ [Event.done (runResponse env q tid)] := by
  simp [streamResearch, h, happyBody, bodyFront]

theorem stream_names (env : Env) (q tid : String) (h : env.fault = none) :
    (streamResearch env q tid).map eventName =
      "thread_id" :: "planning" :: "research_progress" :: "writing" ::
        (List.replicate (reportChunks env q tid).length "message"
          ++ ["done"]) := by
  rw [stream_shape env q tid h]
  have hc : (eventName ∘ Event.message) = fun _ : String => "message" := rfl
  simp [eventName, hc, List.map_const']

theorem stream_count_done (env : Env) (q tid : String) (h : env.fault = none) :
    ((streamResearch env q tid).map eventName).count "done" = 1 := by
  rw [stream_names env q tid h]
  simp [List.count_cons, List.count_append, List.count_eq_zero,
    List.mem_replicate]

theorem stream_count_error (env : Env) (q tid : String) (h : env.fault = none) :
    ((streamResearch env q tid).map eventName).count "error" = 0 := by
  rw [stream_names env q tid h]
  simp [List.count_cons, List.count_append, List.count_eq_zero,
    List.mem_replicate]

/-- C5 (amended): with no machinery fault, the emitted event stream is
exactly one `thread_id` event, then one `planning`, one
`research_progress` and one `writing` event, then zero-or-more `message`
chunk events — one-or-more whenever the final report text is nonempty —
then exactly one terminal `done` event; `done` occurs exactly once, no
`error` event occurs, and (by the shape) no `message` follows `done`. -/
theorem stream_event_sequence (env : Env) (q tid : String)
    (h : env.fault = none) :
    streamResearch env q tid =
      [Event.threadId tid,
       Event.planning
         ("Generated research plan with " ++ toString (subQCount env q tid)
           ++ " focus areas.")
         (subQCount env q tid),
       Event.researchProgress "Research completed for all sub-questions."
         ((runResearchOut env q tid).sources_analyzed.getD 0),
       Event.writing "Synthesis complete. Streaming final report..."]
      ++ (reportChunks env q tid).map Event.message
      ++ [Event.done (runResponse env q tid)] ∧
    ((runResponse env q tid).report ≠ "" → reportChunks env q tid ≠ []) ∧
    ((streamResearch env q tid).map eventName).count "done" = 1 ∧
    ((streamResearch env q tid).map eventName).count "error" = 0 :=
  ⟨stream_shape env q tid h,
   fun hr => chunkText500_getD_ne_nil _ hr,
   stream_count_done env q tid h,
   stream_count_error env q tid h⟩

/-- C5 witness: the event sequence of a concrete fault-free run whose
report text is nonempty. -/
theorem stream_event_sequence_witness :
    envWriteOk.fault = none ∧
    (streamResearch envWriteOk "q" "t" =
      [Event.threadId "t",
       Event.planning
         ("Generated research plan with "
            ++ toString (subQCount envWriteOk "q" "t") ++ " focus areas.")
         (subQCount envWriteOk "q" "t"),
       Event.researchProgress "Research completed for all sub-questions."
         ((runResearchOut envWriteOk "q" "t").sources_analyzed.getD 0),
       Event.writing "Synthesis complete. Streaming final report..."]
      ++ (reportChunks envWriteOk "q" "t").map Event.message
      ++ [Event.done (runResponse envWriteOk "q" "t")] ∧
    ((runResponse envWriteOk "q" "t").report ≠ "" →
        reportChunks envWriteOk "q" "t" ≠ []) ∧
    ((streamResearch envWriteOk "q" "t").map eventName).count "done" = 1 ∧
    ((streamResearch envWriteOk "q" "t").map eventName).count "error" = 0) :=
  ⟨rfl, stream_event_sequence envWriteOk "q" "t" rfl⟩

/-- C5 counterexample: a fault-free run whose writer reply carries an
empty report string emits zero `message` events, so the sequence is not
"one-or-more message chunk events" as the claim states. -/
theorem stream_zero_messages :
    envEmptyReport.fault = none ∧
    (streamResearch envEmptyReport "q" "t").map eventName =
      ["thread_id", "planning", "research_progress", "writing", "done"] ∧
    ((streamResearch envEmptyReport "q" "t").map eventName).count
      "message" = 0 := by
  decide

theorem bodyFront_names (env : Env) (q tid : String) :
    ∀ e ∈ bodyFront env q tid,
      eventName e ≠ "error" ∧ eventName e ≠ "done" := by
  intro e he
  unfold bodyFront at he
  rcases List.mem_append.mp he with h3 | hmsg
  · simp only [List.mem_cons, List.not_mem_nil, or_false] at h3
    rcases h3 with rfl | rfl | rfl <;>
      exact ⟨by simp [eventName], by simp [eventName]⟩
  · obtain ⟨ch, _, rfl⟩ := List.mem_map.mp hmsg
    exact ⟨by simp [eventName], by simp [eventName]⟩

theorem takeBody_names (env : Env) (q tid : String) (n : Nat) :
    ∀ e ∈ (happyBody env q tid).take
        (min n ((happyBody env q tid).length - 1)),
      eventName e ≠ "error" ∧ eventName e ≠ "done" := by
  intro e he
  set k := min n ((happyBody env q tid).length - 1) with hk
  have hle : k ≤ (bodyFront env q tid).length := by
    have hlen : (happyBody env q tid).length =
        (bodyFront env q tid).length + 1 := by
      simp [happyBody]
    rw [hk, hlen]
    omega
  rw [show happyBody env q tid =
        bodyFront env q tid ++ [Event.done (runResponse env q tid)] from rfl,
    List.take_append_of_le_length hle] at he
  exact bodyFront_names env q tid e (List.take_subset _ _ he)

theorem stream_fault_stream (env : Env) (q tid : String) (n : Nat)
    (msg : String) (h : env.fault = some (n, msg)) :
    streamResearch env q tid =
      Event.threadId tid ::
        ((happyBody env q tid).take (min n ((happyBody env q tid).length - 1))
          ++ [Event.error msg "Research workflow failed" tid]) := by
  simp [streamResearch, h]

theorem stream_fault_last (env : Env) (q tid : String) (n : Nat)
    (msg : String) (h : env.fault = some (n, msg)) :
    (streamResearch env q tid).getLast? =
      some (Event.error msg "Research workflow failed" tid) := by
  rw [stream_fault_stream env q tid n msg h, ← List.cons_append,
    List.getLast?_concat]

theorem stream_fault_counts (env : Env) (q tid : String) (n : Nat)
    (msg : String) (h : env.fault = some (n, msg)) :
    ((streamResearch env q tid).map eventName).count "error" = 1 ∧
    ((streamResearch env q tid).map eventName).count "done" = 0 := by
  rw [stream_fault_stream env q tid n msg h]
  have herr : (((happyBody env q tid).take
      (min n ((happyBody env q tid).length - 1))).map eventName).count
        "error" = 0 := by
    rw [List.count_eq_zero]
    intro hmem
    obtain ⟨ev, hev, hname⟩ := List.mem_map.mp hmem
    exact (takeBody_names env q tid n ev hev).1 hname
  have hdone : (((happyBody env q tid).take
      (min n ((happyBody env q tid).length - 1))).map eventName).count
        "done" = 0 := by
    rw [List.count_eq_zero]
    intro hmem
    obtain ⟨ev, hev, hname⟩ := List.mem_map.mp hmem
    exact (takeBody_names env q tid n ev hev).2 hname
  simp only [List.map_cons, List.map_append, List.map_nil, List.count_cons,
    List.count_append, eventName, herr, hdone]
  constructor <;> simp [List.count_cons]

/-- C9: when the streaming machinery itself raises after any prefix of
the run's events, the stream ends with exactly one `error` event carrying
the run identifier and the exception message; it is the last event (no
events of any kind follow), and no `done` event is ever emitted. -/
theorem stream_fault_single_error (env : Env) (q tid : String) (n : Nat)
    (msg : String) (h : env.fault = some (n, msg)) :
    streamResearch env q tid =
      Event.threadId tid ::
        ((happyBody env q tid).take (min n ((happyBody env q tid).length - 1))
          ++ [Event.error msg "Research workflow failed" tid]) ∧
    (streamResearch env q tid).getLast? =
      some (Event.error msg "Research workflow failed" tid) ∧
    ((streamResearch env q tid).map eventName).count "error" = 1 ∧
    ((streamResearch env q tid).map eventName).count "done" = 0 :=
  ⟨stream_fault_stream env q tid n msg h,
   stream_fault_last env q tid n msg h,
   (stream_fault_counts env q tid n msg h).1,
   (stream_fault_counts env q tid n msg h).2⟩

/-- C9 witness: a concrete run whose machinery raises after two events. -/
theorem stream_fault_single_error_witness :
    envFault.fault = some (2, "socket closed") ∧
    (streamResearch envFault "q" "t" =
      Event.threadId "t" ::
        ((happyBody envFault "q" "t").take
            (min 2 ((happyBody envFault "q" "t").length - 1))
          ++ [Event.error "socket closed" "Research workflow failed" "t"]) ∧
    (streamResearch envFault "q" "t").getLast? =
      some (Event.error "socket closed" "Research workflow failed" "t") ∧
    ((streamResearch envFault "q" "t").map eventName).count "error" = 1 ∧
    ((streamResearch envFault "q" "t").map eventName).count "done" = 0) :=
  ⟨rfl, stream_fault_single_error envFault "q" "t" 2 "socket closed" rfl⟩

theorem runQueries_count (env : Env) :
    ∀ qs : List String, (runQueries env qs).2 = (rawAttempted env qs).length
  | [] => rfl
  | q :: qs => by
    cases hs : env.search q with
    | error e => simp [runQueries, rawAttempted, hs]
    | ok rs =>
      have ih := runQueries_count env qs
      rcases hr : runQueries env qs with ⟨first, n⟩
      cases first <;>
        simp_all [runQueries, rawAttempted, hs, hr]

theorem researchStep_total (env : Env) (acc : ResearchAcc) (sq : SubQuestion) :
    (researchStep env acc sq).total =
      acc.total + (runQueries env (sq.search_queries.take 3)).2 := by
  unfold researchStep
  rcases hq : runQueries env (sq.search_queries.take 3) with ⟨first, n⟩
  cases first <;> simp [hq]

theorem foldl_researchStep_total (env : Env) :
    ∀ (sqs : List SubQuestion) (acc : ResearchAcc),
      (sqs.foldl (researchStep env) acc).total =
        acc.total + (rawAll env sqs).length
  | [], acc => by simp [rawAll]
  | sq :: sqs, acc => by
    rw [List.foldl_cons, foldl_researchStep_total env sqs, researchStep_total,
      runQueries_count]
    simp only [rawAll, List.flatMap_cons, List.length_append]
    simp [rawAll, Nat.add_assoc]

theorem research_sources (env : Env) (state : RState) (plan : ResearchPlan)
    (h : state.plan = some plan) :
    (research env state).sources_analyzed =
      some (rawAll env (sortedSubQs plan)).length := by
  unfold research
  rw [h]
  show some ((sortedSubQs plan).foldl (researchStep env)
      { notes := [], citations := [], seen := [], total := 0,
        errors := [] }).total =
    some (rawAll env (sortedSubQs plan)).length
  rw [foldl_researchStep_total]
  simp

theorem writeReport_absent_fields (env : Env) (s : RState) :
    ((writeReport env s).1).sources_analyzed = none ∧
    ((writeReport env s).1).citations = none ∧
    ((writeReport env s).1).plan = none ∧
    ((writeReport env s).1).research_notes = none := by
  unfold writeReport
  split
  · exact ⟨rfl, rfl, rfl, rfl⟩
  · split <;> exact ⟨rfl, rfl, rfl, rfl⟩

theorem graphAfterPlan_plan (env : Env) (q tid : String) :
    (graphAfterPlan env q tid).plan = some (planResult env q) := by
  unfold graphAfterPlan mergeUpdate
  rw [show (runPlanOut env q tid).plan = some (planResult env q) from
    planAgent_plan env (initialState q tid)]
  rfl

theorem runResearchOut_sources (env : Env) (q tid : String) :
    (runResearchOut env q tid).sources_analyzed =
      some (rawAll env (sortedSubQs (planResult env q))).length :=
  research_sources env _ _ (graphAfterPlan_plan env q tid)

theorem trackerFinal_sources (env : Env) (q tid : String) :
    (trackerFinal env q tid).sources_analyzed =
      (rawAll env (sortedSubQs (planResult env q))).length := by
  show ((runWriteOut env q tid).sources_analyzed).getD
      (((runResearchOut env q tid).sources_analyzed).getD
        (((runPlanOut env q tid).sources_analyzed).getD 0)) =
    (rawAll env (sortedSubQs (planResult env q))).length
  rw [show (runWriteOut env q tid).sources_analyzed = none from
      (writeReport_absent_fields env (graphAfterResearch env q tid)).1,
    runResearchOut_sources]
  rfl

theorem stream_last_done (env : Env) (q tid : String) (h : env.fault = none) :
    (streamResearch env q tid).getLast? =
      some (Event.done (runResponse env q tid)) := by
  rw [stream_shape env q tid h,
    List.getLast?_append_of_ne_nil _ (by simp)]
  rfl

/-- C7 (amended): in a fault-free run, the `done` event carries the final
response, and its `metadata.sources_analyzed` equals the total number of
raw search results returned by the executed search calls — counted before
url deduplication, partial results of sub-questions whose loop later
raised included. -/
theorem done_metadata_sources (env : Env) (q tid : String)
    (h : env.fault = none) :
    (streamResearch env q tid).getLast? =
      some (Event.done (runResponse env q tid)) ∧
    (runResponse env q tid).metadata.sources_analyzed =
      (rawAll env (sortedSubQs (planResult env q))).length :=
  ⟨stream_last_done env q tid h, trackerFinal_sources env q tid⟩

/-- C7 witness: the count carried by a concrete fault-free run. -/
theorem done_metadata_sources_witness :
    envWriteOk.fault = none ∧
    ((streamResearch envWriteOk "q" "t").getLast? =
      some (Event.done (runResponse envWriteOk "q" "t")) ∧
    (runResponse envWriteOk "q" "t").metadata.sources_analyzed =
      (rawAll envWriteOk (sortedSubQs (planResult envWriteOk "q"))).length) :=
  ⟨rfl, done_metadata_sources envWriteOk "q" "t" rfl⟩

/-- C7 counterexample: a run in which the same url is returned twice
carries `sources_analyzed = 2` in the `done` event's metadata while only
1 deduplicated search result was consumed, so `sources_analyzed` does not
equal the deduplicated count the claim states. -/
theorem sources_analyzed_not_dedup :
    (streamResearch envDup "q" "t").getLast? =
      some (Event.done (runResponse envDup "q" "t")) ∧
    (runResponse envDup "q" "t").metadata.sources_analyzed = 2 ∧
    ((dedupResults [] (rawSuccess envDup (sortedSubQs planDup))).1).length
      = 1 ∧
    (2 : Nat) ≠ 1 := by
  decide

theorem dedupResults_append :
    ∀ (xs : List SearchResult) (seen : List String) (ys : List SearchResult),
      dedupResults seen (xs ++ ys) =
        ((dedupResults seen xs).1 ++
            (dedupResults (dedupResults seen xs).2.2 ys).1,
         (dedupResults seen xs).2.1 ++
            (dedupResults (dedupResults seen xs).2.2 ys).2.1,
         (dedupResults (dedupResults seen xs).2.2 ys).2.2)
  | [], seen, ys => by simp [dedupResults]
  | r :: xs, seen, ys => by
    by_cases hc : r.url.getD "" ≠ "" ∧ r.url.getD "" ∉ seen
    · simp only [List.cons_append, dedupResults, if_pos hc, List.append_eq]
      rw [dedupResults_append xs (r.url.getD "" :: seen) ys]
    · simp only [List.cons_append, dedupResults, if_neg hc, List.append_eq]
      rw [dedupResults_append xs seen ys]

theorem researchStep_cits_seen (env : Env) (acc : ResearchAcc)
    (sq : SubQuestion) :
    (∃ e n, runQueries env (sq.search_queries.take 3) = (Except.error e, n) ∧
       (researchStep env acc sq).citations = acc.citations ∧
       (researchStep env acc sq).seen = acc.seen) ∨
    (∃ rs n, runQueries env (sq.search_queries.take 3) = (Except.ok rs, n) ∧
       (researchStep env acc sq).citations =
         acc.citations ++ (dedupResults acc.seen rs).2.1 ∧
       (researchStep env acc sq).seen = (dedupResults acc.seen rs).2.2) := by
  unfold researchStep
  rcases hq : runQueries env (sq.search_queries.take 3) with ⟨first, n⟩
  cases first with
  | error e => exact Or.inl ⟨e, n, rfl, rfl, rfl⟩
  | ok rs => exact Or.inr ⟨rs, n, rfl, rfl, rfl⟩

theorem foldl_researchStep_cits_seen (env : Env) :
    ∀ (sqs : List SubQuestion) (acc : ResearchAcc),
      (sqs.foldl (researchStep env) acc).citations =
        acc.citations ++ (dedupResults acc.seen (rawSuccess env sqs)).2.1 ∧
      (sqs.foldl (researchStep env) acc).seen =
        (dedupResults acc.seen (rawSuccess env sqs)).2.2
  | [], acc => by simp [rawSuccess, dedupResults]
  | sq :: sqs, acc => by
    rw [List.foldl_cons]
    have ih := foldl_researchStep_cits_seen env sqs (researchStep env acc sq)
    rcases researchStep_cits_seen env acc sq with
      ⟨e, n, hq, hc, hs⟩ | ⟨rs, n, hq, hc, hs⟩
    · have hflat : rawSuccess env (sq :: sqs) = rawSuccess env sqs := by
        simp [rawSuccess, hq]
      rw [hflat, ih.1, ih.2, hc, hs]
      exact ⟨rfl, rfl⟩
    · have hflat : rawSuccess env (sq :: sqs) = rs ++ rawSuccess env sqs := by
        simp [rawSuccess, hq]
      rw [hflat, ih.1, ih.2, hc, hs,
        dedupResults_append rs acc.seen (rawSuccess env sqs)]
      refine ⟨?_, ?_⟩ <;> simp [List.append_assoc]

theorem dedupResults_urls :
    ∀ (rs : List SearchResult) (seen : List String),
      ((dedupResults seen rs).2.1.map Citation.url).Nodup ∧
      (∀ c ∈ (dedupResults seen rs).2.1, c.url ∉ seen ∧ c.url ≠ "")
  | [], seen => ⟨by simp [dedupResults], by simp [dedupResults]⟩
  | r :: rs, seen => by
    by_cases hc : r.url.getD "" ≠ "" ∧ r.url.getD "" ∉ seen
    · simp only [dedupResults, if_pos hc]
      obtain ⟨ih1, ih2⟩ := dedupResults_urls rs (r.url.getD "" :: seen)
      constructor
      · rw [List.map_cons, List.nodup_cons]
        refine ⟨?_, ih1⟩
        intro hmem
        obtain ⟨c, hcmem, hcu⟩ := List.mem_map.mp hmem
        exact ((ih2 c hcmem).1) (hcu ▸ List.mem_cons_self _ _)
      · intro c hcmem
        rcases List.mem_cons.mp hcmem with rfl | htail
        · exact ⟨hc.2, hc.1⟩
        · have := ih2 c htail
          exact ⟨fun hmem => this.1 (List.mem_cons_of_mem _ hmem), this.2⟩
    · simp only [dedupResults, if_neg hc]
      exact dedupResults_urls rs seen

theorem dedupCitations_eq_self :
    ∀ (cs : List Citation) (seen : List String),
      (cs.map Citation.url).Nodup → (∀ c ∈ cs, c.url ∉ seen) →
      dedupCitations seen cs = cs
  | [], _, _, _ => rfl
  | c :: cs, seen, hnd, hni => by
    unfold dedupCitations
    rw [if_neg (hni c (List.mem_cons_self c cs))]
    rw [List.map_cons, List.nodup_cons] at hnd
    rw [dedupCitations_eq_self cs (c.url :: seen) hnd.2 ?_]
    intro c' hc'
    intro hmem
    rcases List.mem_cons.mp hmem with heq | hseen
    · exact hnd.1 (heq ▸ List.mem_map_of_mem Citation.url hc')
    · exact hni c' (List.mem_cons_of_mem _ hc') hseen

theorem research_citations (env : Env) (state : RState) (plan : ResearchPlan)
    (h : state.plan = some plan) :
    (research env state).citations =
      some (dedupResults [] (rawSuccess env (sortedSubQs plan))).2.1 := by
  unfold research
  rw [h]
  show some ((sortedSubQs plan).foldl (researchStep env)
      { notes := [], citations := [], seen := [], total := 0,
        errors := [] }).citations = _
  rw [(foldl_researchStep_cits_seen env (sortedSubQs plan) _).1]
  rfl

theorem runResearchOut_citations (env : Env) (q tid : String) :
    (runResearchOut env q tid).citations =
      some
        (dedupResults [] (rawSuccess env (sortedSubQs (planResult env q)))).2.1 :=
  research_citations env _ _ (graphAfterPlan_plan env q tid)

theorem trackerFinal_citations (env : Env) (q tid : String) :
    (trackerFinal env q tid).citations =
      (dedupResults [] (rawSuccess env (sortedSubQs (planResult env q)))).2.1 := by
  show ((runWriteOut env q tid).citations).getD
      (((runResearchOut env q tid).citations).getD
        (((runPlanOut env q tid).citations).getD
          (initialState q tid).citations)) = _
  rw [show (runWriteOut env q tid).citations = none from
      (writeReport_absent_fields env (graphAfterResearch env q tid)).2.1,
    runResearchOut_citations]
  rfl

theorem runResponse_citations (env : Env) (q tid : String) :
    (runResponse env q tid).citations =
      (dedupResults [] (rawSuccess env (sortedSubQs (planResult env q)))).2.1 := by
  show dedupCitations [] (trackerFinal env q tid).citations = _
  rw [trackerFinal_citations]
  exact dedupCitations_eq_self _ []
    (dedupResults_urls (rawSuccess env (sortedSubQs (planResult env q))) []).1
    (fun c _ => by simp)

/-- C2 (amended): in a fault-free run, the `done` response's citation
list is exactly the first-occurrence-by-url filter — empty urls dropped,
first occurrence's title kept — over the raw results, in ascending
priority order, of the sub-questions whose whole query loop succeeded (a
sub-question whose search loop raises contributes none of its results);
in particular every url appears at most once. -/
theorem response_citations_dedup (env : Env) (q tid : String)
    (h : env.fault = none) :
    (streamResearch env q tid).getLast? =
      some (Event.done (runResponse env q tid)) ∧
    (runResponse env q tid).citations =
      (dedupResults [] (rawSuccess env (sortedSubQs (planResult env q)))).2.1 ∧
    ((runResponse env q tid).citations.map Citation.url).Nodup :=
  ⟨stream_last_done env q tid h, runResponse_citations env q tid, by
    rw [runResponse_citations]
    exact (dedupResults_urls (rawSuccess env (sortedSubQs (planResult env q)))
      []).1⟩

/-- C2 witness: the deduplicated citation list of a concrete run. -/
theorem response_citations_dedup_witness :
    envDup.fault = none ∧
    ((streamResearch envDup "q" "t").getLast? =
      some (Event.done (runResponse envDup "q" "t")) ∧
    (runResponse envDup "q" "t").citations =
      (dedupResults []
        (rawSuccess envDup (sortedSubQs (planResult envDup "q")))).2.1 ∧
    ((runResponse envDup "q" "t").citations.map Citation.url).Nodup) :=
  ⟨rfl, response_citations_dedup envDup "q" "t" rfl⟩

/-- C2 counterexample: the url `https://u` appears in the raw results of
both sub-questions (titled "TA" under priority-1 "a", "TB" under
priority-2 "b"), but because "a"'s second search call raises, the final
response keeps title "TB" — not the first occurrence in priority order
as the claim states. -/
theorem citations_not_first_title :
    (streamResearch envDup "q" "t").getLast? =
      some (Event.done (runResponse envDup "q" "t")) ∧
    (runResponse envDup "q" "t").citations =
      [{ title := "TB", url := "https://u" }] ∧
    rawAll envDup (sortedSubQs planDup) = [resultTA, resultTB] ∧
    resultTA.url = resultTB.url ∧
    resultTA.title = some "TA" ∧
    ("TB" : String) ≠ "TA" := by
  decide

theorem dedupResults_uniq_no_empty_url :
    ∀ (rs : List SearchResult) (seen : List String) (r : SearchResult),
      r ∈ (dedupResults seen rs).1 → r.url.getD "" ≠ ""
  | [], seen, r => by simp [dedupResults]
  | x :: rs, seen, r => by
    by_cases hc : x.url.getD "" ≠ "" ∧ x.url.getD "" ∉ seen
    · simp only [dedupResults, if_pos hc]
      intro hmem
      rcases List.mem_cons.mp hmem with rfl | htail
      · exact hc.1
      · exact dedupResults_uniq_no_empty_url rs (x.url.getD "" :: seen) r htail
    · simp only [dedupResults, if_neg hc]
      exact dedupResults_uniq_no_empty_url rs seen r

/-- C10: a search result with absent or empty url is never kept in the
deduplicated result list (so it never reaches the synthesis context) and
never yields a Citation, yet it is counted by `total_sources`: concretely,
a run whose single search call returns one url-less result reports
`sources_analyzed = 1` with zero citations — no url was repeated — and
its note shows the empty synthesis context. -/
theorem emptyUrl_counted_not_cited :
    (∀ (rs : List SearchResult) (seen : List String) (r : SearchResult),
        r ∈ (dedupResults seen rs).1 → r.url.getD "" ≠ "") ∧
    (∀ (rs : List SearchResult) (seen : List String) (c : Citation),
        c ∈ (dedupResults seen rs).2.1 → c.url ≠ "") ∧
    ((research envNoUrl stateOne).sources_analyzed = some 1 ∧
     (research envNoUrl stateOne).citations = some [] ∧
     (research envNoUrl stateOne).research_notes =
       some [⟨"sq1", ["No search results available for this question"], [],
              ["Unable to find relevant information"]⟩]) :=
  ⟨fun rs seen r => dedupResults_uniq_no_empty_url rs seen r,
   fun rs seen c hc => ((dedupResults_urls rs seen).2 c hc).2,
   by decide⟩

/-- C10 witness: the exclusion properties at a concrete kept result. -/
theorem emptyUrl_counted_not_cited_witness :
    resultTA.url.getD "" ≠ "" ∧
    ({ title := "TA", url := "https://u" } : Citation).url ≠ "" :=
  ⟨emptyUrl_counted_not_cited.1 [resultTA] [] resultTA (by decide),
   emptyUrl_counted_not_cited.2.1 [resultTA] []
     { title := "TA", url := "https://u" } (by decide)⟩
